import Mathlib

/-!
Shallow embedding of the database-connection management subsystem of the
ElectronPoC control panel (file exporting `addConnection`, `removeConnection`,
`updateConnection`, `getAllConnections`, `testConnection`, `testAllConnections`,
`getConnectionStatus`, `discoverRegistryPaths`, `readRegistryConfig`,
`fetchCredentialsFromRegistry` and the per-driver `test*Connection` adapters).

Modelling conventions:
* JavaScript objects become Lean structures; absent/`undefined` fields become
  `Option` values (`none` = absent).
* JavaScript truthiness on strings (`s ? a : b`) is `none`/empty-string falsy.
* The in-memory module state (`savedConnections`, `connectionStatuses`) and the
  persisted JSON file are carried explicitly in a `StoreState`; `async`
  functions become pure state-passing functions.  File I/O is modelled as
  always succeeding (`loadSavedConnections` copies the file into memory,
  `saveSavedConnections` copies memory into the file).
* External driver libraries and the Windows registry are modelled as explicit
  environment records passed to the functions that consult them.
* All embedded functions are total, which reflects that every code path of the
  source returns a structured result object rather than throwing across the
  adapter boundary.
-/

/-- JS `x || d` for an optional string field: `undefined` and `""` are falsy. -/
def jsOr (s : Option String) (d : String) : String :=
  match s with
  | some v => if v = "" then d else v
  | none => d

/-- JS truthiness of an optional string field. -/
def jsTruthy (s : Option String) : Bool :=
  match s with
  | some v => v ≠ ""
  | none => false

/-- Substring occurrence on character lists (structural recursion, so that
concrete instances evaluate inside the kernel). -/
def listContains (s pat : List Char) : Bool :=
  match s with
  | [] => pat.isPrefixOf ([] : List Char)
  | _ :: rest => pat.isPrefixOf s || listContains rest pat

/-- JS `a.includes(b)` on strings. -/
def strIncludes (s pat : String) : Bool :=
  listContains s.data pat.data

/-- JS `String.prototype.trim`: strip whitespace from both ends. -/
def jsTrim (s : String) : String :=
  ⟨((s.data.dropWhile Char.isWhitespace).reverse.dropWhile Char.isWhitespace).reverse⟩

/-- JS `String.prototype.toLowerCase` (ASCII case mapping). -/
def jsToLower (s : String) : String :=
  ⟨s.data.map Char.toLower⟩

/-- `PASSWORD_PLACEHOLDER` from the source. -/
def PASSWORD_PLACEHOLDER : String := "***SAVED***"

/-- Type-specific connection configuration map (`config` of a record).
Fields are the ones the connection-management code reads. -/
structure ConnConfig where
  host : Option String := none
  server : Option String := none
  port : Option Int := none
  database : Option String := none
  username : Option String := none
  user : Option String := none
  password : Option String := none
  connectionString : Option String := none
  windowsAuth : Bool := false
  encrypt : Option Bool := none
  trustServerCertificate : Option Bool := none
  useOdbc : Bool := false
  odbcConnectionString : Option String := none
  DBN : Option String := none
  DSN : Option String := none
  connectionTimeout : Option Nat := none
deriving DecidableEq, Repr

/-- A saved connection record. -/
structure Connection where
  id : String
  name : String
  type : String
  config : ConnConfig
  createdAt : String
  lastTested : Option String := none
deriving DecidableEq, Repr

/-- `serverInfo` of a successful test result. -/
structure ServerInfo where
  version : String
  currentUser : String
  currentDatabase : String
  serverName : Option String
deriving DecidableEq, Repr

/-- A structured test/status result object (`{success, message?, error?, ...}`).
`success = none` models the `success: null` of the "not tested" sentinel. -/
structure TestResult where
  success : Option Bool
  message : Option String := none
  error : Option String := none
  code : Option String := none
  state : Option String := none
  hint : Option (List String) := none
  serverInfo : Option ServerInfo := none
  triedHosts : Option (List String) := none
  testedAt : Option String := none
deriving DecidableEq, Repr

/-- The module state: in-memory `savedConnections`, the in-memory
`connectionStatuses` map (association list, most recent binding first), and
the persisted JSON file contents. -/
structure StoreState where
  savedConnections : List Connection
  connectionStatuses : List (String × TestResult)
  persistedFile : List Connection
deriving DecidableEq, Repr

/-- `Map.delete` on the status map. -/
def mapDelete (m : List (String × TestResult)) (k : String) : List (String × TestResult) :=
  m.filter (fun p => p.1 ≠ k)

/-- `Map.set` on the status map (overwrites any previous binding). -/
def mapSet (m : List (String × TestResult)) (k : String) (v : TestResult) :
    List (String × TestResult) :=
  (k, v) :: mapDelete m k

/-- `Map.get` on the status map. -/
def mapGet (m : List (String × TestResult)) (k : String) : Option TestResult :=
  (m.find? (fun p => p.1 = k)).map (·.2)

/-- `sanitizeConnectionsForRenderer`: mask `config.password` (truthy value
becomes the placeholder, falsy/absent becomes `undefined`); every other field
is copied unchanged into a fresh object. -/
def sanitizeConnectionsForRenderer (connections : List Connection) : List Connection :=
  connections.map (fun conn =>
    { conn with
      config :=
        { conn.config with
          password := if jsTruthy conn.config.password then some PASSWORD_PLACEHOLDER else none } })

/-- `loadSavedConnections`: read the persisted file into `savedConnections`. -/
def loadSavedConnections (st : StoreState) : StoreState :=
  { st with savedConnections := st.persistedFile }

/-- `saveSavedConnections`: write `savedConnections` to the persisted file. -/
def saveSavedConnections (st : StoreState) : StoreState :=
  { st with persistedFile := st.savedConnections }

/-- Input to `addConnection` (`connectionData`). -/
structure ConnectionData where
  name : String
  type : String
  config : ConnConfig
deriving DecidableEq, Repr

/-- Result of `addConnection`. -/
structure AddResult where
  success : Bool
  connection : Option Connection := none
  error : Option String := none
deriving DecidableEq, Repr

/-- `addConnection`: build a record from the generated id (`generateConnectionId`,
passed here as `newId`) and the current timestamp `now`, push it, persist. -/
def addConnection (st : StoreState) (newId now : String) (connectionData : ConnectionData) :
    AddResult × StoreState :=
  let newConnection : Connection :=
    { id := newId
      name := connectionData.name
      type := connectionData.type
      config := connectionData.config
      createdAt := now
      lastTested := none }
  let st := saveSavedConnections { st with savedConnections := st.savedConnections ++ [newConnection] }
  ({ success := true, connection := some newConnection }, st)

/-- Result of `removeConnection` / a generic `{success, error?}` object. -/
structure SimpleResult where
  success : Bool
  error : Option String := none
deriving DecidableEq, Repr

/-- `removeConnection`: `findIndex` by id, not-found error when absent,
otherwise `splice(index, 1)`, delete the status-map entry, persist. -/
def removeConnection (st : StoreState) (connectionId : String) :
    SimpleResult × StoreState :=
  match st.savedConnections.findIdx? (fun conn => conn.id = connectionId) with
  | none => ({ success := false, error := some "Connection not found" }, st)
  | some index =>
      let st :=
        { st with
          savedConnections := st.savedConnections.eraseIdx index
          connectionStatuses := mapDelete st.connectionStatuses connectionId }
      (({ success := true } : SimpleResult), saveSavedConnections st)

/-- The `updates` patch given to `updateConnection`: JS `Object.assign`
overwrites exactly the fields present in the patch (`some` here). -/
structure ConnectionPatch where
  id : Option String := none
  name : Option String := none
  type : Option String := none
  config : Option ConnConfig := none
  createdAt : Option String := none
  lastTested : Option (Option String) := none
deriving DecidableEq, Repr

/-- `Object.assign(connection, {...updates, id: connectionId, createdAt:
connection.createdAt})`: patch fields win, but `id` and `createdAt` are
overridden afterwards by the spread literal. -/
def assignUpdates (conn : Connection) (connectionId : String) (updates : ConnectionPatch) :
    Connection :=
  { id := connectionId
    name := updates.name.getD conn.name
    type := updates.type.getD conn.type
    config := updates.config.getD conn.config
    createdAt := conn.createdAt
    lastTested := updates.lastTested.getD conn.lastTested }

/-- Replace (in place) the first record whose id matches, as the JS mutation
of the object found by `find` does. -/
def replaceFirstById (conns : List Connection) (connectionId : String) (updated : Connection) :
    List Connection :=
  match conns with
  | [] => []
  | c :: rest =>
      if c.id = connectionId then updated :: rest
      else c :: replaceFirstById rest connectionId updated

/-- Result of `updateConnection`. -/
structure UpdateResult where
  success : Bool
  connection : Option Connection := none
  error : Option String := none
deriving DecidableEq, Repr

/-- `updateConnection`: `find` by id, not-found error when absent, otherwise
`Object.assign` the patch (id/createdAt pinned) and persist. -/
def updateConnection (st : StoreState) (connectionId : String) (updates : ConnectionPatch) :
    UpdateResult × StoreState :=
  match st.savedConnections.find? (fun conn => conn.id = connectionId) with
  | none => ({ success := false, error := some "Connection not found" }, st)
  | some connection =>
      let updated := assignUpdates connection connectionId updates
      let st := { st with savedConnections := replaceFirstById st.savedConnections connectionId updated }
      ({ success := true, connection := some updated }, saveSavedConnections st)

/-- Result of `getAllConnections`. -/
structure GetAllResult where
  success : Bool
  connections : List Connection
  error : Option String := none
deriving DecidableEq, Repr

/-- `getAllConnections`: reload from file, return the sanitized list. -/
def getAllConnections (st : StoreState) : GetAllResult × StoreState :=
  let st := loadSavedConnections st
  ({ success := true, connections := sanitizeConnectionsForRenderer st.savedConnections }, st)

/-- The "not tested" sentinel status. -/
def notTestedStatus : TestResult :=
  { success := none, message := some "Not tested yet" }

/-- `getConnectionStatus`: the cached status, or the sentinel. -/
def getConnectionStatus (st : StoreState) (connectionId : String) : TestResult :=
  (mapGet st.connectionStatuses connectionId).getD notTestedStatus

/-! ### Driver adapters

Each `test*Connection` adapter is embedded as a pure function of the saved
`ConnConfig` and an explicit environment describing the runtime (whether the
driver package is installed, and the outcome of each external connect/query
call).  Besides the structured result object, each adapter returns an
`AdapterTrace` counting the connect attempts it made, the connections it
successfully opened, and the connections it closed before returning — the
observable resource behaviour of the corresponding JS control flow. -/

/-- JS `x || d` for an optional `Int` field (`0` is falsy, like `parseInt(...) || d`). -/
def jsOrInt (x : Option Int) (d : Int) : Int :=
  match x with
  | some v => if v = 0 then d else v
  | none => d

/-- JS `x || d` for an optional `Nat` field (`0` is falsy). -/
def jsOrNat (x : Option Nat) (d : Nat) : Nat :=
  match x with
  | some v => if v = 0 then d else v
  | none => d

/-- JS `a || b` on two optional string fields. -/
def jsOrOpt (a b : Option String) : Option String :=
  if jsTruthy a then a else b

/-- JS template interpolation of `a || b` (`undefined` prints as the string
"undefined" when both are falsy). -/
def jsTemplateOr (a b : Option String) : String :=
  if jsTruthy a then a.getD "" else if jsTruthy b then b.getD "" else "undefined"

/-- An error thrown by a driver library call (`{message, code}`). -/
structure DriverErr where
  message : Option String := none
  code : Option String := none
deriving DecidableEq, Repr

/-- The single row returned by an adapter's identity query
(`version` / `user` / `database` columns, absent when the row or column is
missing). -/
structure QueryRow where
  version : Option String := none
  currentUser : Option String := none
  currentDatabase : Option String := none
deriving DecidableEq, Repr

/-- Connection resource accounting for one adapter execution. -/
structure AdapterTrace where
  connectAttempts : Nat
  opened : Nat
  closed : Nat
deriving DecidableEq, Repr

/-- An adapter execution leaks when it terminates having closed fewer
connections than it opened. -/
def leaksConnection (t : AdapterTrace) : Bool :=
  t.closed < t.opened

/-! #### MSSQL adapter -/

/-- The `connectionConfig` object `testMssqlConnection` passes to `sql.connect`. -/
structure MssqlDriverConfig where
  server : String
  database : String
  port : Int
  encrypt : Bool
  trustServerCertificate : Bool
  enableArithAbort : Bool
  connectionTimeout : Nat
  requestTimeout : Nat
  windowsAuth : Bool
  user : Option String
  password : Option String
deriving DecidableEq, Repr

/-- Lines 2425–2446 of the source: build the mssql connection config. -/
def mssqlConnectionConfig (config : ConnConfig) : MssqlDriverConfig :=
  { server := jsOr config.server "localhost"
    database := jsOr config.database ""
    port := jsOrInt config.port 1433
    encrypt := config.encrypt ≠ some false
    trustServerCertificate := config.trustServerCertificate = some true
    enableArithAbort := true
    connectionTimeout := jsOrNat config.connectionTimeout 15000
    requestTimeout := jsOrNat config.connectionTimeout 15000
    windowsAuth := config.windowsAuth
    user := if config.windowsAuth then none else jsOrOpt config.username config.user
    password := if config.windowsAuth then none else config.password }

/-- Runtime environment for `testMssqlConnection` (the `mssql` package is a
static dependency, so there is no installed-check). -/
structure MssqlEnv where
  connect : MssqlDriverConfig → Except DriverErr Unit
  query : Except DriverErr QueryRow

/-- `testMssqlConnection`: connect, run the identity query, and always close
the pool in the `finally` block when it was opened. -/
def testMssqlConnection (env : MssqlEnv) (config : ConnConfig) :
    TestResult × AdapterTrace :=
  let connectionConfig := mssqlConnectionConfig config
  match env.connect connectionConfig with
  | .error e =>
      -- `pool` is still null, so the `finally` block does not close anything.
      ({ success := some false, error := some (jsOr e.message "Connection failed"),
         code := e.code }, ⟨1, 0, 0⟩)
  | .ok _ =>
      match env.query with
      | .error e =>
          -- the `finally` block closes the opened pool on the failure path too
          ({ success := some false, error := some (jsOr e.message "Connection failed"),
             code := e.code }, ⟨1, 1, 1⟩)
      | .ok row =>
          ({ success := some true, message := some "Connection successful",
             serverInfo := some
               { version := jsOr row.version "Unknown"
                 currentUser := jsOr row.currentUser "Unknown"
                 currentDatabase := jsOr row.currentDatabase "Unknown"
                 serverName := config.server } }, ⟨1, 1, 1⟩)

/-! #### MySQL adapter -/

/-- `err.code === 'ER_ACCESS_DENIED_ERROR' || (err.message && err.message.includes('Access denied'))`. -/
def isAccessDeniedErr (e : DriverErr) : Bool :=
  e.code = some "ER_ACCESS_DENIED_ERROR" ||
    (match e.message with
     | some m => strIncludes m "Access denied"
     | none => false)

/-- `getMysqlAccessDeniedHint`: the four base remediation tips, with a
"Tried host(s)" line unshifted in front when `triedHosts` is non-empty. -/
def getMysqlAccessDeniedHint (errorMessage : Option String) (triedHosts : List String) :
    List String :=
  let base : List String :=
    ["Confirm in terminal: mysql -h 127.0.0.1 -u root -p and enter the SAME password as in the app. If that works but the app fails, the app may have the wrong password saved.",
     "Remove this connection in the app, then Add connection again with Host 127.0.0.1 and retype the password (do not copy-paste).",
     "MySQL 8.0 — in MySQL run: ALTER USER \x27root\x27@\x27localhost\x27 IDENTIFIED WITH mysql_native_password BY \x27your_password\x27; then same for \x27root\x27@\x27127.0.0.1\x27; then FLUSH PRIVILEGES;",
     "Or create a new user: CREATE USER \x27appuser\x27@\x27127.0.0.1\x27 IDENTIFIED WITH mysql_native_password BY \x27password\x27; GRANT ALL ON *.* TO \x27appuser\x27@\x27127.0.0.1\x27; FLUSH PRIVILEGES; then in the app use Host 127.0.0.1, user appuser."]
  if triedHosts ≠ [] then
    ("Tried host(s): " ++ String.intercalate ", " triedHosts ++ " — all failed.") :: base
  else base

/-- The base config `testMysqlConnection` passes to `mysql.createConnection`
(spread with each candidate host). -/
structure MysqlDriverConfig where
  port : Int
  user : String
  password : String
  database : Option String
  connectTimeout : Nat
  ssl : Option Bool
deriving DecidableEq, Repr

/-- Runtime environment for `testMysqlConnection`. -/
structure MysqlEnv where
  mysql2Installed : Bool
  connect : MysqlDriverConfig → String → Option DriverErr
  query : Except DriverErr QueryRow

/-- The normalised host: `(config.host || 'localhost').trim().toLowerCase()`. -/
def mysqlNormalizedHost (config : ConnConfig) : String :=
  jsToLower (jsTrim (jsOr config.host "localhost"))

/-- The candidate host list `hostsToTry` of `testMysqlConnection`. -/
def mysqlHostsToTry (host : String) : List String :=
  if host = "localhost" then ["127.0.0.1", "localhost"]
  else if host = "127.0.0.1" then ["127.0.0.1", "localhost"]
  else [host]

/-- The `baseConfig` object of `testMysqlConnection` (trimmed/normalised
inputs; SSL disabled for local hosts). -/
def mysqlBaseConfig (config : ConnConfig) : MysqlDriverConfig :=
  let host := mysqlNormalizedHost config
  { port := jsOrInt config.port 3306
    user := jsTrim (jsOr config.username (jsOr config.user "root"))
    password := jsTrim (config.password.getD "")
    database := if jsTrim (jsOr config.database "") = "" then none else some (jsTrim (jsOr config.database ""))
    connectTimeout := jsOrNat config.connectionTimeout 15000
    ssl := if host = "localhost" || host = "127.0.0.1" then some false else none }

/-- The connect loop of `testMysqlConnection`: try each host in order;
a success breaks with the connected host and clears `lastError`; an
access-denied failure records the error and continues; any other failure
breaks immediately.  Also counts the `createConnection` attempts made. -/
def mysqlTryHosts (connect : String → Option DriverErr) :
    List String → Option DriverErr → Option String × Option DriverErr × Nat
  | [], lastError => (none, lastError, 0)
  | tryHost :: rest, _ =>
      match connect tryHost with
      | none => (some tryHost, none, 1)
      | some err =>
          if isAccessDeniedErr err then
            let r := mysqlTryHosts connect rest (some err)
            (r.1, r.2.1, r.2.2 + 1)
          else (none, some err, 1)

/-- `testMysqlConnection`: driver-installed check, trim/normalise the inputs,
fail fast on a masked saved password, try the candidate hosts, then run the
identity query and `end()` the connection on the success path.  A query
failure after a successful connect falls into the outer catch, which returns
without closing the connection. -/
def testMysqlConnection (env : MysqlEnv) (config : ConnConfig) :
    TestResult × AdapterTrace :=
  if !env.mysql2Installed then
    ({ success := some false,
       error := some "MySQL driver not installed. Please install mysql2 package." }, ⟨0, 0, 0⟩)
  else
    let host := mysqlNormalizedHost config
    let password := jsTrim (config.password.getD "")
    if password = PASSWORD_PLACEHOLDER then
      ({ success := some false,
         error := some "Saved password is masked (***SAVED***). Remove this connection and add it again with the real password.",
         code := some "PASSWORD_MASKED",
         hint := some
           ["This connection was saved with a masked password placeholder.",
            "Remove the connection in the app and add it again, then retype the real password and click Test."] },
       ⟨0, 0, 0⟩)
    else
      let baseConfig := mysqlBaseConfig config
      let hostsToTry := mysqlHostsToTry host
      match mysqlTryHosts (env.connect baseConfig) hostsToTry none with
      | (none, lastError, attempts) =>
          ({ success := some false
             error := some (jsOr (lastError.bind (·.message)) "Connection failed")
             code := lastError.bind (·.code)
             hint := some (getMysqlAccessDeniedHint (lastError.bind (·.message)) hostsToTry)
             triedHosts := some hostsToTry }, ⟨attempts, 0, 0⟩)
      | (some connectedHost, _, attempts) =>
          match env.query with
          | .ok rows =>
              ({ success := some true, message := some "Connection successful",
                 serverInfo := some
                   { version := jsOr rows.version "Unknown"
                     currentUser := jsOr rows.currentUser "Unknown"
                     currentDatabase := jsOr rows.currentDatabase "Unknown"
                     serverName := some connectedHost } }, ⟨attempts, 1, 1⟩)
          | .error e =>
              let hint := if isAccessDeniedErr e then some (getMysqlAccessDeniedHint e.message []) else none
              ({ success := some false, error := some (jsOr e.message "Connection failed"),
                 code := e.code, hint := hint }, ⟨attempts, 1, 0⟩)

/-! #### PostgreSQL adapter -/

/-- The config object `testPostgresqlConnection` passes to `new Client`. -/
structure PgDriverConfig where
  host : String
  port : Int
  user : Option String
  password : Option String
  database : String
  connectionTimeoutMillis : Nat
deriving DecidableEq, Repr

/-- Lines 2617–2624 of the source: build the pg client config. -/
def pgClientConfig (config : ConnConfig) : PgDriverConfig :=
  { host := jsOr config.host "localhost"
    port := jsOrInt config.port 5432
    user := jsOrOpt config.username config.user
    password := config.password
    database := jsOr config.database "postgres"
    connectionTimeoutMillis := jsOrNat config.connectionTimeout 15000 }

/-- Runtime environment for `testPostgresqlConnection`. -/
structure PgEnv where
  pgInstalled : Bool
  connect : PgDriverConfig → Except DriverErr Unit
  query : Except DriverErr QueryRow

/-- `testPostgresqlConnection`: driver-installed check, connect, identity
query, `client.end()` only on the success path (there is no `finally`
block, so a query failure after a successful connect leaves the client
connected). -/
def testPostgresqlConnection (env : PgEnv) (config : ConnConfig) :
    TestResult × AdapterTrace :=
  if !env.pgInstalled then
    ({ success := some false,
       error := some "PostgreSQL driver not installed. Please install pg package." }, ⟨0, 0, 0⟩)
  else
    let client := pgClientConfig config
    match env.connect client with
    | .error e =>
        ({ success := some false, error := some (jsOr e.message "Connection failed"),
           code := e.code }, ⟨1, 0, 0⟩)
    | .ok _ =>
        match env.query with
        | .error e =>
            -- the catch block returns without calling `client.end()`
            ({ success := some false, error := some (jsOr e.message "Connection failed"),
               code := e.code }, ⟨1, 1, 0⟩)
        | .ok row =>
            ({ success := some true, message := some "Connection successful",
               serverInfo := some
                 { version := jsOr row.version "Unknown"
                   currentUser := jsOr row.currentUser "Unknown"
                   currentDatabase := jsOr row.currentDatabase "Unknown"
                   serverName := config.host } }, ⟨1, 1, 1⟩)

/-! #### MongoDB adapter -/

/-- JS template interpolation of a possibly-`undefined` field. -/
def jsTemplate (o : Option String) : String :=
  match o with
  | some v => v
  | none => "undefined"

/-- The connection string `testMongodbConnection` builds when the config does
not carry one. -/
def mongoConnectionString (config : ConnConfig) : String :=
  jsOr config.connectionString
    ("mongodb://" ++
      (if jsTruthy config.username then
        (config.username.getD "") ++ ":" ++ jsTemplate config.password ++ "@"
      else "") ++
      jsOr config.host "localhost" ++ ":" ++ toString (jsOrInt config.port 27017) ++ "/" ++
      jsOr config.database "")

/-- Runtime environment for `testMongodbConnection`. -/
structure MongoEnv where
  mongodbInstalled : Bool
  connect : String → Except DriverErr Unit
  serverInfoCall : Except DriverErr (Option String)

/-- `testMongodbConnection`: driver-installed check, connect, `serverInfo()`
identity call, `client.close()` only on the success path. -/
def testMongodbConnection (env : MongoEnv) (config : ConnConfig) :
    TestResult × AdapterTrace :=
  if !env.mongodbInstalled then
    ({ success := some false,
       error := some "MongoDB driver not installed. Please install mongodb package." }, ⟨0, 0, 0⟩)
  else
    match env.connect (mongoConnectionString config) with
    | .error e =>
        ({ success := some false, error := some (jsOr e.message "Connection failed"),
           code := e.code }, ⟨1, 0, 0⟩)
    | .ok _ =>
        match env.serverInfoCall with
        | .error e =>
            ({ success := some false, error := some (jsOr e.message "Connection failed"),
               code := e.code }, ⟨1, 1, 0⟩)
        | .ok version =>
            ({ success := some true, message := some "Connection successful",
               serverInfo := some
                 { version := jsOr version "Unknown"
                   currentUser := jsOr config.username "Unknown"
                   currentDatabase := jsOr config.database "Unknown"
                   serverName := config.host } }, ⟨1, 1, 1⟩)

/-! #### ODBC adapter -/

/-- One entry of a thrown ODBC error's `odbcErrors` array. -/
structure OdbcSubErr where
  message : Option String := none
  state : Option String := none
deriving DecidableEq, Repr

/-- An error thrown by the `odbc` package. -/
structure OdbcErr where
  message : Option String := none
  code : Option String := none
  state : Option String := none
  odbcErrors : List OdbcSubErr := []
deriving DecidableEq, Repr

/-- Runtime environment for `testOdbcConnection`.  `bridgeResult` is the
result of `testOdbcConnection32Bit` from the 32-bit bridge module, which
handles `useOdbc` configs in a separate process. -/
structure OdbcEnv where
  bridgeResult : TestResult
  odbcInstalled : Bool
  connect : String → Except OdbcErr Unit
  query : Except OdbcErr Unit

/-- The parts list `[DBN=, DSN=, UID=, PWD=].filter(Boolean)` used to build an
ODBC connection string when `config.odbcConnectionString` is falsy. -/
def odbcParts (config : ConnConfig) : List String :=
  ([(config.DBN, "DBN="), (config.DSN, "DSN="), (config.username, "UID="),
    (config.password, "PWD=")]).filterMap
    (fun p => if jsTruthy p.1 then some (p.2 ++ p.1.getD "") else none)

/-- The ODBC connection string of `testOdbcConnection`. -/
def odbcConnectionStringOf (config : ConnConfig) : String :=
  jsOr config.odbcConnectionString (String.intercalate ";" (odbcParts config))

/-- Split a character list on `;` (structural recursion). -/
def splitOnSemicolon : List Char → List (List Char)
  | [] => [[]]
  | x :: rest =>
      match splitOnSemicolon rest with
      | [] => [[]]
      | seg :: segs => if x = ';' then [] :: seg :: segs else (x :: seg) :: segs

/-- Within one segment, replace the first case-insensitive `PWD=` and
everything after it by `PWD=***`. -/
def maskPwdSegment : List Char → List Char
  | [] => []
  | x :: rest =>
      if "PWD=".data.isPrefixOf ((x :: rest).map Char.toUpper) then "PWD=***".data
      else x :: maskPwdSegment rest

/-- Re-join `;`-separated segments. -/
def joinSemicolon : List (List Char) → List Char
  | [] => []
  | [seg] => seg
  | seg :: rest => seg ++ ';' :: joinSemicolon rest

/-- Model of `connectionString.replace(/PWD=[^;]*/gi, 'PWD=***')`
(`safeConnectionString`): the regex match never crosses a `;`, so it is the
segment-wise replacement of the first case-insensitive `PWD=` and the rest of
the segment. -/
def maskPwd (s : String) : String :=
  ⟨joinSemicolon ((splitOnSemicolon s.data).map maskPwdSegment)⟩

/-- The failure result built by `testOdbcConnection`'s catch block: refine the
error message from the first `odbcErrors` entry, collect hints keyed on the
SQLSTATE / message patterns, and fall back to the generic Eaglesoft hint set
when no pattern matched. -/
def odbcFailureResult (config : ConnConfig) (connectionString : String) (e : OdbcErr) :
    TestResult :=
  let safeConnectionString := maskPwd connectionString
  let errorMessage := jsOr e.message "ODBC connection failed"
  let dsnDisplay := jsTemplateOr config.DSN config.server
  let refined :=
    match e.odbcErrors with
    | [] => (errorMessage, ([] : List String))
    | odbcError :: _ =>
        let errorMessage := jsOr odbcError.message errorMessage
        let hints :=
          (if odbcError.state = some "IM002" || strIncludes errorMessage "Data source name not found" then
            ["DSN \"" ++ dsnDisplay ++ "\" is not configured in Windows ODBC Data Sources.",
             "Open \"ODBC Data Sources (32-bit)\" from Windows Start menu.",
             "Add a System DSN named \"" ++ dsnDisplay ++ "\" pointing to your Eaglesoft database.",
             "If Eaglesoft uses ProvideX, ensure the ProvideX ODBC driver is installed."]
          else []) ++
          (if odbcError.state = some "28000" || strIncludes errorMessage "login failed" then
            ["Invalid username or password for the DSN.",
             "Verify credentials: UID=" ++ jsOr config.username "N/A",
             "Check the DSN configuration in ODBC Data Source Administrator."]
          else []) ++
          (if odbcError.state = some "08001" || strIncludes errorMessage "unable to connect" then
            ["Cannot establish connection to the database server.",
             "Ensure the database server/service is running.",
             "Verify network connectivity if using a remote server."]
          else [])
        (errorMessage, hints)
  let hints :=
    if refined.2 = [] then
      ["The DSN \"" ++ dsnDisplay ++ "\" must be configured in Windows ODBC Data Source Administrator (32-bit).",
       "Eaglesoft typically uses ProvideX ODBC driver. Ensure it is installed and the DSN is configured.",
       "Try opening Eaglesoft application to verify database connectivity works there first.",
       "Connection string used: " ++ safeConnectionString]
    else refined.2
  { success := some false, error := some refined.1, code := e.code, state := e.state,
    hint := some hints }

/-- `testOdbcConnection`: `useOdbc` configs go through the 32-bit bridge;
otherwise require the `odbc` package, build the connection string, connect,
run `SELECT 1`, and always close the opened connection in the `finally`
block.  (The `rawResult` field of the success object is not modelled.) -/
def testOdbcConnection (env : OdbcEnv) (config : ConnConfig) :
    TestResult × AdapterTrace :=
  if config.useOdbc then (env.bridgeResult, ⟨0, 0, 0⟩)
  else if !env.odbcInstalled then
    ({ success := some false,
       error := some "ODBC driver not installed. Please install the \"odbc\" npm package to test ODBC DSN connections.",
       code := some "ODBC_DRIVER_MISSING" }, ⟨0, 0, 0⟩)
  else
    let connectionString := odbcConnectionStringOf config
    if connectionString = "" then
      ({ success := some false,
         error := some "Missing ODBC connection string information for Eaglesoft connection." }, ⟨0, 0, 0⟩)
    else
      match env.connect connectionString with
      | .error e =>
          -- `connection` was never assigned, so the `finally` block is a no-op
          (odbcFailureResult config connectionString e, ⟨1, 0, 0⟩)
      | .ok _ =>
          match env.query with
          | .error e =>
              -- the `finally` block closes the opened connection
              (odbcFailureResult config connectionString e, ⟨1, 1, 1⟩)
          | .ok _ =>
              ({ success := some true, message := some "ODBC connection successful",
                 serverInfo := some
                   { version := "ODBC connection"
                     currentUser := jsOr config.username "N/A"
                     currentDatabase := jsOr config.DBN (jsOr config.database "N/A")
                     serverName := some (jsOr config.DSN (jsOr config.server "N/A")) } },
               ⟨1, 1, 1⟩)

/-! ### Test dispatch (`testConnection`, `testAllConnections`) -/

/-- The full runtime environment for the store-level test pipeline: the
adapter environments (as functions of the config each call receives) and the
timestamp `new Date().toISOString()` returns. -/
structure DbEnv where
  mssql : ConnConfig → MssqlEnv
  mysql : ConnConfig → MysqlEnv
  pg : ConnConfig → PgEnv
  mongo : ConnConfig → MongoEnv
  odbc : ConnConfig → OdbcEnv
  now : String

/-- The adapter dispatch inside `testConnection` (lines 2715–2737): `useOdbc`
configs with a connection string go to the ODBC adapter, otherwise the switch
on the record's `type`. -/
def dispatchTest (env : DbEnv) (connection : Connection) : TestResult :=
  if connection.config.useOdbc && jsTruthy connection.config.odbcConnectionString then
    (testOdbcConnection (env.odbc connection.config) connection.config).1
  else
    match connection.type with
    | "mssql" => (testMssqlConnection (env.mssql connection.config) connection.config).1
    | "mysql" => (testMysqlConnection (env.mysql connection.config) connection.config).1
    | "postgresql" => (testPostgresqlConnection (env.pg connection.config) connection.config).1
    | "mongodb" => (testMongodbConnection (env.mongo connection.config) connection.config).1
    | t =>
        { success := some false,
          error := some ("Database type \x27" ++ t ++ "\x27 is not supported yet") }

/-- The in-place `connection.lastTested = ...` mutation: update the first
record whose id matches (the one `find` returned). -/
def setLastTestedFirst (conns : List Connection) (connectionId now : String) :
    List Connection :=
  match conns with
  | [] => []
  | c :: rest =>
      if c.id = connectionId then { c with lastTested := some now } :: rest
      else c :: setLastTestedFirst rest connectionId now

/-- `testConnection`: `find` the record (not-found result when absent),
dispatch to the adapter, stamp `lastTested`, persist, and cache the status
(with `testedAt`) in the in-memory map. -/
def testConnection (env : DbEnv) (st : StoreState) (connectionId : String) :
    TestResult × StoreState :=
  match st.savedConnections.find? (fun conn => conn.id = connectionId) with
  | none => ({ success := some false, error := some "Connection not found" }, st)
  | some connection =>
      let result := dispatchTest env connection
      let st := saveSavedConnections
        { st with savedConnections := setLastTestedFirst st.savedConnections connectionId env.now }
      let st :=
        { st with
          connectionStatuses :=
            mapSet st.connectionStatuses connectionId { result with testedAt := some env.now } }
      (result, st)

/-- One entry of the `results` array of `testAllConnections`:
`{connectionId, name, type, ...result}`. -/
structure TestAllEntry where
  connectionId : String
  name : String
  type : String
  result : TestResult
deriving DecidableEq, Repr

/-- Result of `testAllConnections`. -/
structure TestAllResult where
  success : Bool
  results : List TestAllEntry
  error : Option String := none
deriving DecidableEq, Repr

/-- The sequential `for (const connection of savedConnections)` loop of
`testAllConnections`, threading the store state through each test. -/
def testAllLoop (env : DbEnv) : List Connection → StoreState → List TestAllEntry × StoreState
  | [], st => ([], st)
  | connection :: rest, st =>
      let r := testConnection env st connection.id
      let rec' := testAllLoop env rest r.2
      (⟨connection.id, connection.name, connection.type, r.1⟩ :: rec'.1, rec'.2)

/-- `testAllConnections`: reload from file, test each saved connection in
stored-list order, and return `{success:true, results}`. -/
def testAllConnections (env : DbEnv) (st : StoreState) : TestAllResult × StoreState :=
  let st := loadSavedConnections st
  let r := testAllLoop env st.savedConnections st
  ({ success := true, results := r.1 }, r.2)

/-! ### Registry scanner / credential pipeline -/

/-- The two hives `discoverRegistryPaths` scans, in order. -/
def registryHives : List String := ["HKCU", "HKLM"]

/-- The vendor-specific candidate base paths (switch on `dbType`), in the
source's order; unknown types get no paths. -/
def registryBasePaths (dbType instanceName : String) : List String :=
  if dbType = "mssql" then
    ["\\SOFTWARE\\YourApp\\SQLConnection\\" ++ instanceName,
     "\\SOFTWARE\\YourApp\\SQLConnection",
     "\\SOFTWARE\\Microsoft\\Microsoft SQL Server\\" ++ instanceName,
     "\\SOFTWARE\\Microsoft\\MSSQLServer\\" ++ instanceName]
  else if dbType = "mysql" then
    ["\\SOFTWARE\\YourApp\\MySQLConnection\\" ++ instanceName,
     "\\SOFTWARE\\YourApp\\MySQLConnection",
     "\\SOFTWARE\\MySQL AB\\" ++ instanceName,
     "\\SOFTWARE\\MySQL AB",
     "\\SOFTWARE\\MySQL"]
  else if dbType = "postgresql" then
    ["\\SOFTWARE\\YourApp\\PostgreSQLConnection\\" ++ instanceName,
     "\\SOFTWARE\\YourApp\\PostgreSQLConnection",
     "\\SOFTWARE\\PostgreSQL\\" ++ instanceName,
     "\\SOFTWARE\\PostgreSQL\\Installations\\" ++ instanceName,
     "\\SOFTWARE\\PostgreSQL"]
  else if dbType = "mongodb" then
    ["\\SOFTWARE\\YourApp\\MongoDBConnection\\" ++ instanceName,
     "\\SOFTWARE\\YourApp\\MongoDBConnection",
     "\\SOFTWARE\\MongoDB\\" ++ instanceName,
     "\\SOFTWARE\\MongoDB"]
  else []

/-- A discovered registry location (`{hive, path, fullPath}`). -/
structure RegPath where
  hive : String
  path : String
  fullPath : String
deriving DecidableEq, Repr

/-- The machine's registry, as an oracle: `reg hive key` is the value list of
the key (name/value pairs, in enumeration order), or `none` when reading the
key errors (key absent or unreadable). -/
def RegistryOracle := String → String → Option (List (String × String))

/-- `discoverRegistryPaths`: probe every hive × base-path combination by
attempting a read, and keep (in that order) the ones that are readable. -/
def discoverRegistryPaths (reg : RegistryOracle) (dbType instanceName : String) :
    List RegPath :=
  registryHives.flatMap (fun hive =>
    (registryBasePaths dbType instanceName).filterMap (fun basePath =>
      if (reg hive basePath).isSome then
        some { hive := hive, path := basePath, fullPath := hive ++ basePath }
      else none))

/-- `readRegistryConfig`: flatten a key's values into a map, `null` on error. -/
def readRegistryConfig (reg : RegistryOracle) (hive path : String) :
    Option (List (String × String)) :=
  reg hive path

/-- Result of `fetchCredentialsFromRegistry`. -/
structure FetchResult where
  success : Bool
  error : Option String := none
  config : Option (List (String × String)) := none
  source : Option String := none
  discoveredPaths : Option (List String) := none
deriving DecidableEq, Repr

/-- The `for (const regPath of registryPaths)` loop of
`fetchCredentialsFromRegistry`: first path whose read yields a non-empty
config wins; read errors are caught and skipped. -/
def fetchLoop (reg : RegistryOracle) : List RegPath → Option (List (String × String) × String)
  | [] => none
  | regPath :: rest =>
      match readRegistryConfig reg regPath.hive regPath.path with
      | some config => if config ≠ [] then some (config, regPath.fullPath) else fetchLoop reg rest
      | none => fetchLoop reg rest

/-- `fetchCredentialsFromRegistry`: Windows-only; discover candidate paths,
try them in order, and return the first non-empty config with its source, or
a structured "enter details manually" failure (with the tried paths when some
were discovered). -/
def fetchCredentialsFromRegistry (reg : RegistryOracle) (platform dbType instanceName : String) :
    FetchResult :=
  if platform ≠ "win32" then
    { success := false, error := some "Registry access is only available on Windows" }
  else
    let registryPaths := discoverRegistryPaths reg dbType instanceName
    if registryPaths = [] then
      { success := false,
        error := some "No configuration found in registry. Please enter connection details manually." }
    else
      match fetchLoop reg registryPaths with
      | some found =>
          { success := true, config := some found.1, source := some found.2 }
      | none =>
          { success := false,
            error := some "Registry keys found but no valid configuration. Please enter connection details manually.",
            discoveredPaths := some (registryPaths.map (·.fullPath)) }

/-! ### Auxiliary predicates and concrete instances used by the verification -/

/-- Whether an `Except` computation failed. -/
def exceptIsError {ε α : Type} : Except ε α → Bool
  | .error _ => true
  | .ok _ => false

/-- Relation between a record returned by `getAllConnections` and the stored
record it was built from: identity on every field except `config.password`,
which is the placeholder exactly when the stored password is truthy. -/
def sanitizedMatches (ret stored : Connection) : Prop :=
  ret.id = stored.id ∧ ret.name = stored.name ∧ ret.type = stored.type ∧
  ret.createdAt = stored.createdAt ∧ ret.lastTested = stored.lastTested ∧
  ret.config = { stored.config with password := ret.config.password } ∧
  (∀ p, stored.config.password = some p → p ≠ "" →
    ret.config.password = some PASSWORD_PLACEHOLDER ∧
    (p ≠ PASSWORD_PLACEHOLDER → ret.config.password ≠ some p))

/-- A benign runtime environment (every external call succeeds) used to
instantiate store-level statements at concrete inputs. -/
def trivialDbEnv : DbEnv :=
  { mssql := fun _ => { connect := fun _ => Except.ok (), query := Except.ok {} }
    mysql := fun _ => { mysql2Installed := true, connect := fun _ _ => none, query := Except.ok {} }
    pg := fun _ => { pgInstalled := true, connect := fun _ => Except.ok (), query := Except.ok {} }
    mongo := fun _ => { mongodbInstalled := true, connect := fun _ => Except.ok (), serverInfoCall := Except.ok none }
    odbc := fun _ => { bridgeResult := { success := some true }, odbcInstalled := true,
                       connect := fun _ => Except.ok (), query := Except.ok () }
    now := "2026-01-01T00:00:00.000Z" }

/-- A stored record whose persisted password is literally the placeholder
string (the state the source itself anticipates in its `PASSWORD_MASKED`
check for older saved files). -/
def c1Record : Connection :=
  { id := "conn_1", name := "legacy", type := "mysql",
    config := { password := some PASSWORD_PLACEHOLDER },
    createdAt := "2024-01-01T00:00:00.000Z" }

/-- Store holding `c1Record`. -/
def c1Store : StoreState :=
  { savedConnections := [], connectionStatuses := [], persistedFile := [c1Record] }

/-- A stored record with an ordinary secret password. -/
def c1WitnessRecord : Connection :=
  { id := "conn_2", name := "db", type := "mysql",
    config := { host := some "localhost", password := some "s3cret" },
    createdAt := "2024-01-02T00:00:00.000Z" }

/-- Store holding `c1WitnessRecord`. -/
def c1WitnessStore : StoreState :=
  { savedConnections := [], connectionStatuses := [], persistedFile := [c1WitnessRecord] }

/-- A saved record used to instantiate the unknown-id statements. -/
def c2Record : Connection :=
  { id := "conn_a", name := "A", type := "mysql", config := {}, createdAt := "t0" }

/-- Store holding `c2Record` (consistent memory and file). -/
def c2Store : StoreState :=
  { savedConnections := [c2Record], connectionStatuses := [], persistedFile := [c2Record] }

/-- A pre-existing record for the add/remove round-trip instance. -/
def c3Record : Connection :=
  { id := "conn_old", name := "Old", type := "mssql",
    config := { server := some "localhost" }, createdAt := "t0" }

/-- Store holding `c3Record`, with a stale status entry for the id about to
be added. -/
def c3Store : StoreState :=
  { savedConnections := [c3Record]
    connectionStatuses := [("conn_new", { success := some true, message := some "Connection successful" })]
    persistedFile := [c3Record] }

/-- Connection data for the add/remove round-trip instance. -/
def c3Data : ConnectionData :=
  { name := "X", type := "mysql",
    config := { host := some "localhost", port := some 3306, database := some "d",
                username := some "u", password := some "p" } }

/-- MySQL runtime where the connect succeeds on `127.0.0.1` and the identity
query then fails. -/
def c4LeakEnv : MysqlEnv :=
  { mysql2Installed := true
    connect := fun _ host => if host = "127.0.0.1" then none else some { message := some "unreachable" }
    query := Except.error { message := some "Query failed", code := some "PROTOCOL_ERROR" } }

/-- A plain local MySQL config. -/
def c4Config : ConnConfig :=
  { host := some "localhost", username := some "root", password := some "pw" }

/-- PostgreSQL runtime where the connect succeeds and the identity query
fails. -/
def c4PgEnv : PgEnv :=
  { pgInstalled := true
    connect := fun _ => Except.ok ()
    query := Except.error { message := some "permission denied" } }

/-- MSSQL runtime whose identity query fails. -/
def c4MssqlEnv : MssqlEnv :=
  { connect := fun _ => Except.ok ()
    query := Except.error { message := some "query timeout" } }

/-- ODBC runtime whose test query fails. -/
def c4OdbcEnv : OdbcEnv :=
  { bridgeResult := { success := some false }
    odbcInstalled := true
    connect := fun _ => Except.ok ()
    query := Except.error { message := some "query failed" } }

/-- An ODBC config carrying a DSN-style connection string. -/
def c4OdbcConfig : ConnConfig :=
  { odbcConnectionString := some "DSN=Eaglesoft;UID=u;PWD=p" }

/-- The empty store. -/
def c5Store : StoreState :=
  { savedConnections := [], connectionStatuses := [], persistedFile := [] }

/-- A two-record store exercising result ordering. -/
def c5Store2 : StoreState :=
  { savedConnections := []
    connectionStatuses := []
    persistedFile :=
      [{ id := "conn_x", name := "X", type := "mysql", config := {}, createdAt := "t1" },
       { id := "conn_y", name := "Y", type := "postgresql", config := {}, createdAt := "t2" }] }

/-- A registry holding a readable-but-empty HKCU key and a populated HKLM key
for the MySQL instance `MySQL57`. -/
def c6Reg : RegistryOracle := fun hive key =>
  if hive = "HKCU" ∧ key = "\\SOFTWARE\\MySQL AB\\MySQL57" then some []
  else if hive = "HKLM" ∧ key = "\\SOFTWARE\\MySQL AB\\MySQL57" then
    some [("Host", "localhost"), ("User", "root")]
  else none

/-- A registry where nothing is readable. -/
def c6EmptyReg : RegistryOracle := fun _ _ => none

/-- MySQL runtime without the `mysql2` package. -/
def c7MysqlEnv : MysqlEnv :=
  { mysql2Installed := false, connect := fun _ _ => none, query := Except.ok {} }

/-- PostgreSQL runtime without the `pg` package. -/
def c7PgEnv : PgEnv :=
  { pgInstalled := false, connect := fun _ => Except.ok (), query := Except.ok {} }

/-- MongoDB runtime without the `mongodb` package. -/
def c7MongoEnv : MongoEnv :=
  { mongodbInstalled := false, connect := fun _ => Except.ok (), serverInfoCall := Except.ok none }

/-- ODBC runtime without the `odbc` package. -/
def c7OdbcEnv : OdbcEnv :=
  { bridgeResult := { success := some false }, odbcInstalled := false,
    connect := fun _ => Except.ok (), query := Except.ok () }

/-- MySQL runtime where every connect attempt is rejected with an
access-denied error. -/
def c8Env : MysqlEnv :=
  { mysql2Installed := true
    connect := fun _ _ => some
      { message := some "Access denied for user \x27root\x27@\x27localhost\x27 (using password: YES)",
        code := some "ER_ACCESS_DENIED_ERROR" }
    query := Except.ok {} }

/-- The config used with `c8Env`. -/
def c8Config : ConnConfig :=
  { host := some "127.0.0.1", username := some "root", password := some "wrong" }

/-- The error `c8Env` rejects with. -/
def c8Err : DriverErr :=
  { message := some "Access denied for user \x27root\x27@\x27localhost\x27 (using password: YES)",
    code := some "ER_ACCESS_DENIED_ERROR" }

/-- A record to be updated, with a known id and creation date. -/
def c9Record : Connection :=
  { id := "conn_u", name := "U", type := "mysql",
    config := { host := some "localhost" }, createdAt := "2024-03-01T00:00:00.000Z" }

/-- Store holding `c9Record`. -/
def c9Store : StoreState :=
  { savedConnections := [c9Record], connectionStatuses := [], persistedFile := [c9Record] }

/-- A patch that tries to overwrite both `id` and `createdAt`. -/
def c9Patch : ConnectionPatch :=
  { id := some "conn_hijacked", name := some "U2", createdAt := some "1999-01-01T00:00:00.000Z" }

/-- MySQL runtime that records no particular behaviour (the masked-password
check fires before any of it is consulted). -/
def c10Env : MysqlEnv :=
  { mysql2Installed := true
    connect := fun _ _ => none
    query := Except.ok {} }

/-- A config whose saved password trims to the masking placeholder. -/
def c10Config : ConnConfig :=
  { host := some "localhost", username := some "root", password := some " ***SAVED*** " }

/-! ### Shared lemmas -/

/-- Sanitizing never changes record ids. -/
theorem sanitize_map_id (l : List Connection) :
    (sanitizeConnectionsForRenderer l).map (fun c => c.id) = l.map (fun c => c.id) := by
  induction l with
  | nil => rfl
  | cons c rest ih => simp [sanitizeConnectionsForRenderer] at ih ⊢

/-- Deleting a key from the status map makes it unreadable. -/
theorem mapGet_mapDelete (m : List (String × TestResult)) (k : String) :
    mapGet (mapDelete m k) k = none := by
  simp only [mapGet, mapDelete, List.find?_filter]
  rw [Option.map_eq_none', List.find?_eq_none]
  intro x _
  simp

/-- Each sanitized record matches its source record. -/
theorem sanitize_forall₂ (l : List Connection) :
    List.Forall₂ sanitizedMatches (sanitizeConnectionsForRenderer l) l := by
  induction l with
  | nil => exact List.Forall₂.nil
  | cons conn rest ih =>
      refine List.Forall₂.cons ⟨rfl, rfl, rfl, rfl, rfl, rfl, ?_⟩ ih
      intro p hp hne
      constructor
      · show (if jsTruthy conn.config.password then some PASSWORD_PLACEHOLDER else none) = _
        simp [hp, jsTruthy, hne]
      · intro hpp
        show (if jsTruthy conn.config.password then some PASSWORD_PLACEHOLDER else none) ≠ _
        simp [hp, jsTruthy, hne]
        exact fun hEq => hpp hEq.symm

/-- Replacing the found record by one with the same id never changes the
stored id sequence. -/
theorem replaceFirst_map_id (l : List Connection) (cid : String) (u : Connection)
    (hu : u.id = cid) :
    (replaceFirstById l cid u).map (fun c => c.id) = l.map (fun c => c.id) := by
  induction l with
  | nil => rfl
  | cons c rest ih =>
      by_cases hc : c.id = cid
      · simp [replaceFirstById, hc, hu]
      · simp [replaceFirstById, hc, ih]

/-- Stamping `lastTested` never changes the stored id sequence. -/
theorem setLastTested_map_id (l : List Connection) (cid now : String) :
    (setLastTestedFirst l cid now).map (fun c => c.id) = l.map (fun c => c.id) := by
  induction l with
  | nil => rfl
  | cons c rest ih =>
      by_cases hc : c.id = cid
      · simp [setLastTestedFirst, hc]
      · simp [setLastTestedFirst, hc, ih]

/-- Removing a record that was appended to a clean list restores the list and
drops the status entry. -/
theorem remove_appended (l : List Connection) (statuses : List (String × TestResult))
    (file : List Connection) (a : Connection) (cid : String)
    (ha : a.id = cid) (h : ∀ c ∈ l, c.id ≠ cid) :
    removeConnection ⟨l ++ [a], statuses, file⟩ cid =
      (({ success := true } : SimpleResult), ⟨l, mapDelete statuses cid, l⟩) := by
  have hidx : (l ++ [a]).findIdx? (fun c => c.id = cid) = some l.length := by
    rw [List.findIdx?_append]
    have h1 : l.findIdx? (fun c => c.id = cid) = none := by
      rw [List.findIdx?_eq_none_iff]
      intro x hx
      simpa using h x hx
    rw [h1]
    simp [List.findIdx?_cons, ha]
  have herase : (l ++ [a]).eraseIdx l.length = l := by
    rw [List.eraseIdx_append_of_length_le (Nat.le_refl _)]
    simp
  simp [removeConnection, hidx, herase, saveSavedConnections]

/-! ### Claim C1 -/

/-- C1 counterexample: `c1Record`'s stored `config.password` is the non-empty
string `***SAVED***`, and the record returned by `getAllConnections` carries
exactly that same string as its `config.password` — so the returned password
*does* equal the stored password, refuting the claim's "never equals the
stored password" clause at this input. -/
theorem c1_returned_password_equals_stored_counterexample :
    c1Record.config.password = some PASSWORD_PLACEHOLDER ∧
    PASSWORD_PLACEHOLDER ≠ "" ∧
    ((getAllConnections c1Store).1.connections.map (fun r => r.config.password)) =
      [c1Record.config.password] := by
  decide

/-- C1 (amended): every record returned by `getAllConnections` matches its
stored record field-for-field except `config.password`; when the stored
password is a non-empty string the returned password is the fixed placeholder
`***SAVED***`, and differs from the stored password whenever the stored
password is not itself the placeholder string; the backing store (memory and
file) keeps the real passwords unchanged. -/
theorem c1_list_masks_passwords (st : StoreState) :
    (getAllConnections st).1.success = true ∧
    List.Forall₂ sanitizedMatches (getAllConnections st).1.connections st.persistedFile ∧
    (getAllConnections st).2.savedConnections = st.persistedFile ∧
    (getAllConnections st).2.persistedFile = st.persistedFile ∧
    (getAllConnections st).2.connectionStatuses = st.connectionStatuses :=
  ⟨rfl, sanitize_forall₂ st.persistedFile, rfl, rfl, rfl⟩

/-- C1 witness: the amended statement at a concrete one-record store whose
password is `s3cret`. -/
theorem c1_list_masks_passwords_witness :
    (getAllConnections c1WitnessStore).1.success = true ∧
    List.Forall₂ sanitizedMatches (getAllConnections c1WitnessStore).1.connections
      c1WitnessStore.persistedFile ∧
    (getAllConnections c1WitnessStore).2.savedConnections = c1WitnessStore.persistedFile ∧
    (getAllConnections c1WitnessStore).2.persistedFile = c1WitnessStore.persistedFile ∧
    (getAllConnections c1WitnessStore).2.connectionStatuses = c1WitnessStore.connectionStatuses :=
  c1_list_masks_passwords c1WitnessStore

/-! ### Claim C2 -/

/-- C2: for an id absent from the saved-connections store, `testConnection`
returns `{success:false, error:"Connection not found"}` and `removeConnection`
returns `{success:false, error:"Connection not found"}`, and both leave the
whole store state (saved list, status map, persisted file) unchanged; both
are total functions, so neither throws. -/
theorem c2_unknown_id_not_found (env : DbEnv) (st : StoreState) (connectionId : String)
    (h : ∀ c ∈ st.savedConnections, c.id ≠ connectionId) :
    testConnection env st connectionId =
      ({ success := some false, error := some "Connection not found" }, st) ∧
    removeConnection st connectionId =
      ({ success := false, error := some "Connection not found" }, st) := by
  have hfind : st.savedConnections.find? (fun conn => conn.id = connectionId) = none := by
    rw [List.find?_eq_none]
    intro x hx
    simpa using h x hx
  have hidx : st.savedConnections.findIdx? (fun conn => conn.id = connectionId) = none := by
    rw [List.findIdx?_eq_none_iff]
    intro x hx
    simpa using h x hx
  exact ⟨by simp [testConnection, hfind], by simp [removeConnection, hidx]⟩

/-- C2 witness: the statement at a concrete store and the unknown id
`conn_missing`. -/
theorem c2_unknown_id_not_found_witness :
    c2Store.savedConnections.all (fun c => c.id != "conn_missing") = true ∧
    (testConnection trivialDbEnv c2Store "conn_missing" =
      ({ success := some false, error := some "Connection not found" }, c2Store) ∧
    removeConnection c2Store "conn_missing" =
      ({ success := false, error := some "Connection not found" }, c2Store)) :=
  ⟨by decide, c2_unknown_id_not_found trivialDbEnv c2Store "conn_missing" (by decide)⟩

/-! ### Claim C3 -/

/-- C3: after adding a record under a fresh id and then removing that id, the
list returned by `getAllConnections` contains no record with the id, and
`getConnectionStatus` yields the `{success:null, message:'Not tested yet'}`
sentinel (the status-map entry is deleted by the removal). -/
theorem c3_add_remove_roundtrip (st : StoreState) (newId now : String) (data : ConnectionData)
    (h : ∀ c ∈ st.savedConnections, c.id ≠ newId) :
    newId ∉ ((getAllConnections
        (removeConnection ((addConnection st newId now data).2) newId).2).1.connections.map
          (fun r => r.id)) ∧
    getConnectionStatus (removeConnection ((addConnection st newId now data).2) newId).2 newId =
      notTestedStatus := by
  have hadd : (addConnection st newId now data).2 =
      (⟨st.savedConnections ++ [⟨newId, data.name, data.type, data.config, now, none⟩],
        st.connectionStatuses,
        st.savedConnections ++ [⟨newId, data.name, data.type, data.config, now, none⟩]⟩ :
        StoreState) := rfl
  rw [hadd, remove_appended _ _ _ _ _ rfl h]
  constructor
  · show newId ∉ (sanitizeConnectionsForRenderer st.savedConnections).map (fun r => r.id)
    rw [sanitize_map_id]
    intro hmem
    obtain ⟨c, hcin, hcid⟩ := List.mem_map.1 hmem
    exact h c hcin hcid
  · show (mapGet (mapDelete st.connectionStatuses newId) newId).getD notTestedStatus = _
    rw [mapGet_mapDelete]
    rfl

/-- C3 witness: the statement at a concrete store (which even starts with a
stale status entry under the id that gets added and removed). -/
theorem c3_add_remove_roundtrip_witness :
    c3Store.savedConnections.all (fun c => c.id != "conn_new") = true ∧
    ("conn_new" ∉ ((getAllConnections
        (removeConnection ((addConnection c3Store "conn_new" "t1" c3Data).2) "conn_new").2).1.connections.map
          (fun r => r.id)) ∧
    getConnectionStatus (removeConnection ((addConnection c3Store "conn_new" "t1" c3Data).2)
        "conn_new").2 "conn_new" = notTestedStatus) :=
  ⟨by decide, c3_add_remove_roundtrip c3Store "conn_new" "t1" c3Data (by decide)⟩

/-! ### Claim C9 -/

/-- C9: for an existing id, `updateConnection` succeeds and the returned
record keeps the given id and the original `createdAt`, whatever the patch
contains (including `id`/`createdAt` fields); moreover neither
`updateConnection` nor `testConnection` changes any stored id. -/
theorem c9_update_preserves_id_createdAt (st : StoreState) (connectionId : String)
    (updates : ConnectionPatch) (conn : Connection) (env : DbEnv)
    (h : st.savedConnections.find? (fun c => c.id = connectionId) = some conn) :
    (updateConnection st connectionId updates).1.success = true ∧
    ((updateConnection st connectionId updates).1.connection.map (fun u => u.id)) =
      some connectionId ∧
    ((updateConnection st connectionId updates).1.connection.map (fun u => u.createdAt)) =
      some conn.createdAt ∧
    ((updateConnection st connectionId updates).2.savedConnections.map (fun c => c.id)) =
      st.savedConnections.map (fun c => c.id) ∧
    ((testConnection env st connectionId).2.savedConnections.map (fun c => c.id)) =
      st.savedConnections.map (fun c => c.id) := by
  refine ⟨?_, ?_, ?_, ?_, ?_⟩
  · simp [updateConnection, h]
  · simp [updateConnection, h, assignUpdates]
  · simp [updateConnection, h, assignUpdates]
  · simp [updateConnection, h, saveSavedConnections]
    exact replaceFirst_map_id _ _ _ rfl
  · simp [testConnection, h, saveSavedConnections]
    exact setLastTested_map_id _ _ _

/-- C9 witness: the statement at a concrete store with a patch that attempts
to overwrite both `id` and `createdAt`. -/
theorem c9_update_preserves_id_createdAt_witness :
    c9Store.savedConnections.find? (fun c => c.id = "conn_u") = some c9Record ∧
    ((updateConnection c9Store "conn_u" c9Patch).1.success = true ∧
    ((updateConnection c9Store "conn_u" c9Patch).1.connection.map (fun u => u.id)) =
      some "conn_u" ∧
    ((updateConnection c9Store "conn_u" c9Patch).1.connection.map (fun u => u.createdAt)) =
      some c9Record.createdAt ∧
    ((updateConnection c9Store "conn_u" c9Patch).2.savedConnections.map (fun c => c.id)) =
      c9Store.savedConnections.map (fun c => c.id) ∧
    ((testConnection trivialDbEnv c9Store "conn_u").2.savedConnections.map (fun c => c.id)) =
      c9Store.savedConnections.map (fun c => c.id)) :=
  ⟨by decide,
   c9_update_preserves_id_createdAt c9Store "conn_u" c9Patch c9Record trivialDbEnv (by decide)⟩

/-! ### Claim C4 -/

/-- C4 counterexample: with a runtime where the connect to `127.0.0.1`
succeeds and the identity query then fails, `testMysqlConnection` terminates
having opened one connection and closed none — the execution ends with an
open connection, refuting the claim for the MySQL adapter. -/
theorem c4_mysql_query_failure_leaks_counterexample :
    (testMysqlConnection c4LeakEnv c4Config).2.opened = 1 ∧
    (testMysqlConnection c4LeakEnv c4Config).2.closed = 0 ∧
    leaksConnection (testMysqlConnection c4LeakEnv c4Config).2 = true ∧
    (testMysqlConnection c4LeakEnv c4Config).1.success = some false := by
  decide

/-- C4 (amended): the MSSQL and ODBC adapters close every connection they
open on all paths (their close sits in a `finally` block); the MySQL and
PostgreSQL adapters leak exactly when the connect phase succeeds and the
identity query then fails, because their failure return skips the close. -/
theorem c4_adapter_close_behaviour :
    (∀ (env : MssqlEnv) (config : ConnConfig),
      leaksConnection (testMssqlConnection env config).2 = false) ∧
    (∀ (env : OdbcEnv) (config : ConnConfig),
      leaksConnection (testOdbcConnection env config).2 = false) ∧
    (∀ (env : MysqlEnv) (config : ConnConfig),
      leaksConnection (testMysqlConnection env config).2 = true ↔
        (env.mysql2Installed = true ∧
         jsTrim (config.password.getD "") ≠ PASSWORD_PLACEHOLDER ∧
         (mysqlTryHosts (env.connect (mysqlBaseConfig config))
            (mysqlHostsToTry (mysqlNormalizedHost config)) none).1.isSome = true ∧
         exceptIsError env.query = true)) ∧
    (∀ (env : PgEnv) (config : ConnConfig),
      leaksConnection (testPostgresqlConnection env config).2 = true ↔
        (env.pgInstalled = true ∧
         exceptIsError (env.connect (pgClientConfig config)) = false ∧
         exceptIsError env.query = true)) := by
  refine ⟨?_, ?_, ?_, ?_⟩
  · intro env config
    rcases hc : env.connect (mssqlConnectionConfig config) with e | u
    · simp [testMssqlConnection, hc, leaksConnection]
    · rcases hq : env.query with e | r <;> simp [testMssqlConnection, hc, hq, leaksConnection]
  · intro env config
    by_cases hu : config.useOdbc
    · simp [testOdbcConnection, hu, leaksConnection]
    · by_cases hi : env.odbcInstalled
      · by_cases hs : odbcConnectionStringOf config = ""
        · simp [testOdbcConnection, hu, hi, hs, leaksConnection]
        · rcases hc : env.connect (odbcConnectionStringOf config) with e | u
          · simp [testOdbcConnection, hu, hi, hs, hc, leaksConnection]
          · rcases hq : env.query with e | r <;>
              simp [testOdbcConnection, hu, hi, hs, hc, hq, leaksConnection]
      · simp [testOdbcConnection, hu, hi, leaksConnection]
  · intro env config
    by_cases hi : env.mysql2Installed
    · by_cases hm : jsTrim (config.password.getD "") = PASSWORD_PLACEHOLDER
      · simp [testMysqlConnection, hi, hm, leaksConnection]
      · rcases ht : mysqlTryHosts (env.connect (mysqlBaseConfig config))
            (mysqlHostsToTry (mysqlNormalizedHost config)) none with ⟨c, e, n⟩
        cases c with
        | none => simp [testMysqlConnection, hi, hm, ht, leaksConnection]
        | some connectedHost =>
            rcases hq : env.query with e' | r <;>
              simp [testMysqlConnection, hi, hm, ht, hq, leaksConnection, exceptIsError]
    · simp [testMysqlConnection, hi, leaksConnection]
  · intro env config
    by_cases hi : env.pgInstalled
    · rcases hc : env.connect (pgClientConfig config) with e | u
      · simp [testPostgresqlConnection, hi, hc, leaksConnection, exceptIsError]
      · rcases hq : env.query with e | r <;>
          simp [testPostgresqlConnection, hi, hc, hq, leaksConnection, exceptIsError]
    · simp [testPostgresqlConnection, hi, leaksConnection]

/-- C4 witness: the amended statement instantiated at concrete runtimes —
MSSQL and ODBC do not leak even when their query fails, while MySQL and
PostgreSQL do leak on a query failure after a successful connect. -/
theorem c4_adapter_close_behaviour_witness :
    leaksConnection (testMssqlConnection c4MssqlEnv c4Config).2 = false ∧
    leaksConnection (testOdbcConnection c4OdbcEnv c4OdbcConfig).2 = false ∧
    leaksConnection (testMysqlConnection c4LeakEnv c4Config).2 = true ∧
    leaksConnection (testPostgresqlConnection c4PgEnv c4Config).2 = true :=
  ⟨c4_adapter_close_behaviour.1 c4MssqlEnv c4Config,
   c4_adapter_close_behaviour.2.1 c4OdbcEnv c4OdbcConfig,
   (c4_adapter_close_behaviour.2.2.1 c4LeakEnv c4Config).mpr (by decide),
   (c4_adapter_close_behaviour.2.2.2 c4PgEnv c4Config).mpr (by decide)⟩

/-! ### Claim C5 -/

/-- The `testAllConnections` loop reports exactly the ids of the connections
it iterates, in their list order. -/
theorem testAllLoop_map_connectionId (env : DbEnv) (conns : List Connection) :
    ∀ st : StoreState,
      ((testAllLoop env conns st).1).map (fun r => r.connectionId) =
        conns.map (fun c => c.id) := by
  induction conns with
  | nil => intro st; rfl
  | cons c rest ih => intro st; simp [testAllLoop, ih]

/-- C5: `testAllConnections` returns `{success:true, results}` with exactly
one entry per saved connection, `results[i].connectionId` being the id of the
i-th connection of the stored (persisted) list — input-list order — and on an
empty store the results array is empty. -/
theorem c5_testAll_order (env : DbEnv) (st : StoreState) :
    (testAllConnections env st).1.success = true ∧
    ((testAllConnections env st).1.results.map (fun r => r.connectionId)) =
      st.persistedFile.map (fun c => c.id) ∧
    (testAllConnections env st).1.results.length = st.persistedFile.length ∧
    (st.persistedFile = [] → (testAllConnections env st).1.results = []) := by
  have hmap : ((testAllConnections env st).1.results.map (fun r => r.connectionId)) =
      st.persistedFile.map (fun c => c.id) :=
    testAllLoop_map_connectionId env st.persistedFile (loadSavedConnections st)
  have hlen : (testAllConnections env st).1.results.length = st.persistedFile.length := by
    have h := congrArg List.length hmap
    simpa using h
  refine ⟨rfl, hmap, hlen, ?_⟩
  intro hnil
  rw [hnil] at hlen
  exact List.eq_nil_of_length_eq_zero hlen

/-- C5 witness: the statement at the empty store and at a two-record store
(whose result ids come back in stored order). -/
theorem c5_testAll_order_witness :
    c5Store.persistedFile = [] ∧
    (testAllConnections trivialDbEnv c5Store).1.success = true ∧
    (testAllConnections trivialDbEnv c5Store).1.results = [] ∧
    ((testAllConnections trivialDbEnv c5Store2).1.results.map (fun r => r.connectionId)) =
      ["conn_x", "conn_y"] := by
  refine ⟨rfl, (c5_testAll_order trivialDbEnv c5Store).1,
    (c5_testAll_order trivialDbEnv c5Store).2.2.2 rfl, ?_⟩
  rw [(c5_testAll_order trivialDbEnv c5Store2).2.1]
  decide

/-! ### Claim C6 -/

/-- A run of readable-but-empty registry keys contributes nothing to the
fetch loop. -/
theorem fetchLoop_all_empty (reg : RegistryOracle) :
    ∀ l : List RegPath, (∀ q ∈ l, reg q.hive q.path = some []) → fetchLoop reg l = none := by
  intro l
  induction l with
  | nil => intro _; rfl
  | cons p rest ih =>
      intro h
      have hp := h p (List.mem_cons_self p rest)
      simp [fetchLoop, readRegistryConfig, hp]
      exact ih (fun q hq => h q (List.mem_cons_of_mem p hq))

/-- The fetch loop returns the first discovered path whose read yields a
non-empty value map. -/
theorem fetchLoop_first (reg : RegistryOracle) (p : RegPath) (cfg : List (String × String))
    (hp : reg p.hive p.path = some cfg) (hne : cfg ≠ []) :
    ∀ l₁ l₂ : List RegPath, (∀ q ∈ l₁, reg q.hive q.path = some []) →
      fetchLoop reg (l₁ ++ p :: l₂) = some (cfg, p.fullPath) := by
  intro l₁
  induction l₁ with
  | nil =>
      intro l₂ _
      simp [fetchLoop, readRegistryConfig, hp, hne]
  | cons q rest ih =>
      intro l₂ h
      have hq := h q (List.mem_cons_self q rest)
      simp [fetchLoop, readRegistryConfig, hq]
      exact ih l₂ (fun r hr => h r (List.mem_cons_of_mem q hr))

/-- C6: on Windows, `fetchCredentialsFromRegistry` (a) returns the structured
"No configuration found … enter connection details manually" failure when no
registry path was discovered; (b) returns `{success:true, config, source}`
for the first discovered path whose read yields a non-empty value map; and
(c) when paths were discovered but all reads come back empty, returns the
structured "Registry keys found but no valid configuration … enter connection
details manually" failure carrying the list of tried paths.  The embedding is
a total function: no branch throws. -/
theorem c6_fetch_credentials_first_nonempty (reg : RegistryOracle)
    (dbType instanceName : String) :
    (discoverRegistryPaths reg dbType instanceName = [] →
      fetchCredentialsFromRegistry reg "win32" dbType instanceName =
        { success := false,
          error := some "No configuration found in registry. Please enter connection details manually." }) ∧
    (∀ (l₁ : List RegPath) (p : RegPath) (l₂ : List RegPath) (cfg : List (String × String)),
      discoverRegistryPaths reg dbType instanceName = l₁ ++ p :: l₂ →
      (∀ q ∈ l₁, reg q.hive q.path = some []) →
      reg p.hive p.path = some cfg → cfg ≠ [] →
      fetchCredentialsFromRegistry reg "win32" dbType instanceName =
        { success := true, config := some cfg, source := some p.fullPath }) ∧
    ((∀ q ∈ discoverRegistryPaths reg dbType instanceName, reg q.hive q.path = some []) →
      discoverRegistryPaths reg dbType instanceName ≠ [] →
      fetchCredentialsFromRegistry reg "win32" dbType instanceName =
        { success := false,
          error := some "Registry keys found but no valid configuration. Please enter connection details manually.",
          discoveredPaths :=
            some ((discoverRegistryPaths reg dbType instanceName).map (fun q => q.fullPath)) }) := by
  refine ⟨?_, ?_, ?_⟩
  · intro hnil
    simp [fetchCredentialsFromRegistry, hnil]
  · intro l₁ p l₂ cfg hpaths hempty hp hne
    have hloop := fetchLoop_first reg p cfg hp hne l₁ l₂ hempty
    have hnonnil : discoverRegistryPaths reg dbType instanceName ≠ [] := by
      rw [hpaths]
      simp
    simp [fetchCredentialsFromRegistry, hnonnil, hpaths ▸ hloop]
  · intro hempty hnonnil
    have hloop := fetchLoop_all_empty reg _ hempty
    simp [fetchCredentialsFromRegistry, hnonnil, hloop]

/-- C6 witness: with a registry holding a readable-but-empty HKCU key and a
populated HKLM key for MySQL instance `MySQL57`, the fetch returns the HKLM
config with its source path; with an unreadable registry it returns the
"enter manually" failure. -/
theorem c6_fetch_credentials_first_nonempty_witness :
    discoverRegistryPaths c6Reg "mysql" "MySQL57" =
      [{ hive := "HKCU", path := "\\SOFTWARE\\MySQL AB\\MySQL57",
         fullPath := "HKCU\\SOFTWARE\\MySQL AB\\MySQL57" },
       { hive := "HKLM", path := "\\SOFTWARE\\MySQL AB\\MySQL57",
         fullPath := "HKLM\\SOFTWARE\\MySQL AB\\MySQL57" }] ∧
    c6Reg "HKCU" "\\SOFTWARE\\MySQL AB\\MySQL57" = some [] ∧
    c6Reg "HKLM" "\\SOFTWARE\\MySQL AB\\MySQL57" =
      some [("Host", "localhost"), ("User", "root")] ∧
    fetchCredentialsFromRegistry c6Reg "win32" "mysql" "MySQL57" =
      { success := true, config := some [("Host", "localhost"), ("User", "root")],
        source := some "HKLM\\SOFTWARE\\MySQL AB\\MySQL57" } ∧
    discoverRegistryPaths c6EmptyReg "mysql" "MySQL57" = [] ∧
    fetchCredentialsFromRegistry c6EmptyReg "win32" "mysql" "MySQL57" =
      { success := false,
        error := some "No configuration found in registry. Please enter connection details manually." } := by
  refine ⟨by decide, by decide, by decide, ?_, by decide, ?_⟩
  · exact (c6_fetch_credentials_first_nonempty c6Reg "mysql" "MySQL57").2.1
      [{ hive := "HKCU", path := "\\SOFTWARE\\MySQL AB\\MySQL57",
         fullPath := "HKCU\\SOFTWARE\\MySQL AB\\MySQL57" }]
      { hive := "HKLM", path := "\\SOFTWARE\\MySQL AB\\MySQL57",
        fullPath := "HKLM\\SOFTWARE\\MySQL AB\\MySQL57" }
      [] [("Host", "localhost"), ("User", "root")]
      (by decide) (by decide) (by decide) (by decide)
  · exact (c6_fetch_credentials_first_nonempty c6EmptyReg "mysql" "MySQL57").1 (by decide)

/-! ### Claim C7 -/

/-- C7: when the required driver package is absent, each adapter returns a
structured `{success:false, error}` whose message says the driver is not
installed (for the direct ODBC path, additionally `code:ODBC_DRIVER_MISSING`);
all adapters are total functions, so none throws. -/
theorem c7_driver_not_installed (mysqlEnv : MysqlEnv) (pgEnv : PgEnv) (mongoEnv : MongoEnv)
    (odbcEnv : OdbcEnv) (config : ConnConfig)
    (hmy : mysqlEnv.mysql2Installed = false) (hpg : pgEnv.pgInstalled = false)
    (hmo : mongoEnv.mongodbInstalled = false) (hod : odbcEnv.odbcInstalled = false)
    (hcfg : config.useOdbc = false) :
    (testMysqlConnection mysqlEnv config).1 =
      { success := some false,
        error := some "MySQL driver not installed. Please install mysql2 package." } ∧
    (testPostgresqlConnection pgEnv config).1 =
      { success := some false,
        error := some "PostgreSQL driver not installed. Please install pg package." } ∧
    (testMongodbConnection mongoEnv config).1 =
      { success := some false,
        error := some "MongoDB driver not installed. Please install mongodb package." } ∧
    (testOdbcConnection odbcEnv config).1 =
      { success := some false,
        error := some "ODBC driver not installed. Please install the \"odbc\" npm package to test ODBC DSN connections.",
        code := some "ODBC_DRIVER_MISSING" } := by
  refine ⟨?_, ?_, ?_, ?_⟩
  · simp [testMysqlConnection, hmy]
  · simp [testPostgresqlConnection, hpg]
  · simp [testMongodbConnection, hmo]
  · simp [testOdbcConnection, hod, hcfg]

/-- C7 witness: the statement at concrete driverless runtimes and the default
config. -/
theorem c7_driver_not_installed_witness :
    c7MysqlEnv.mysql2Installed = false ∧ c7PgEnv.pgInstalled = false ∧
    c7MongoEnv.mongodbInstalled = false ∧ c7OdbcEnv.odbcInstalled = false ∧
    ({} : ConnConfig).useOdbc = false ∧
    ((testMysqlConnection c7MysqlEnv {}).1 =
      { success := some false,
        error := some "MySQL driver not installed. Please install mysql2 package." } ∧
    (testPostgresqlConnection c7PgEnv {}).1 =
      { success := some false,
        error := some "PostgreSQL driver not installed. Please install pg package." } ∧
    (testMongodbConnection c7MongoEnv {}).1 =
      { success := some false,
        error := some "MongoDB driver not installed. Please install mongodb package." } ∧
    (testOdbcConnection c7OdbcEnv {}).1 =
      { success := some false,
        error := some "ODBC driver not installed. Please install the \"odbc\" npm package to test ODBC DSN connections.",
        code := some "ODBC_DRIVER_MISSING" }) :=
  ⟨rfl, rfl, rfl, rfl, rfl,
   c7_driver_not_installed c7MysqlEnv c7PgEnv c7MongoEnv c7OdbcEnv {} rfl rfl rfl rfl rfl⟩

/-! ### Claim C8 -/

/-- The access-denied hint list is never empty (its base already holds four
entries; a non-empty tried-hosts list only prepends one more). -/
theorem getMysqlAccessDeniedHint_ne_nil (m : Option String) (l : List String) :
    getMysqlAccessDeniedHint m l ≠ [] := by
  unfold getMysqlAccessDeniedHint
  split <;> simp

/-- C8: when every connect attempt fails and the recorded error is an
access-denied error (`ER_ACCESS_DENIED_ERROR` code or an `Access denied`
message), `testMysqlConnection` returns a failure whose `hint` is the
non-empty access-denied remediation list. -/
theorem c8_access_denied_populates_hint (env : MysqlEnv) (config : ConnConfig)
    (e : DriverErr) (n : Nat)
    (hinst : env.mysql2Installed = true)
    (hmask : jsTrim (config.password.getD "") ≠ PASSWORD_PLACEHOLDER)
    (hfail : mysqlTryHosts (env.connect (mysqlBaseConfig config))
        (mysqlHostsToTry (mysqlNormalizedHost config)) none = (none, some e, n))
    (hdenied : isAccessDeniedErr e = true) :
    (testMysqlConnection env config).1.success = some false ∧
    (testMysqlConnection env config).1.code = e.code ∧
    (testMysqlConnection env config).1.hint =
      some (getMysqlAccessDeniedHint e.message (mysqlHostsToTry (mysqlNormalizedHost config))) ∧
    getMysqlAccessDeniedHint e.message (mysqlHostsToTry (mysqlNormalizedHost config)) ≠ [] := by
  refine ⟨?_, ?_, ?_, getMysqlAccessDeniedHint_ne_nil _ _⟩ <;>
    simp [testMysqlConnection, hinst, hmask, hfail]

/-- C8 witness: a runtime rejecting both candidate hosts with
`ER_ACCESS_DENIED_ERROR` yields a failure with the non-empty hint list. -/
theorem c8_access_denied_populates_hint_witness :
    c8Env.mysql2Installed = true ∧
    jsTrim (c8Config.password.getD "") ≠ PASSWORD_PLACEHOLDER ∧
    mysqlTryHosts (c8Env.connect (mysqlBaseConfig c8Config))
        (mysqlHostsToTry (mysqlNormalizedHost c8Config)) none = (none, some c8Err, 2) ∧
    isAccessDeniedErr c8Err = true ∧
    ((testMysqlConnection c8Env c8Config).1.success = some false ∧
    (testMysqlConnection c8Env c8Config).1.code = c8Err.code ∧
    (testMysqlConnection c8Env c8Config).1.hint =
      some (getMysqlAccessDeniedHint c8Err.message (mysqlHostsToTry (mysqlNormalizedHost c8Config))) ∧
    getMysqlAccessDeniedHint c8Err.message (mysqlHostsToTry (mysqlNormalizedHost c8Config)) ≠ []) :=
  ⟨rfl, by decide, by decide, by decide,
   c8_access_denied_populates_hint c8Env c8Config c8Err 2 rfl (by decide) (by decide) (by decide)⟩

/-! ### Claim C10 -/

/-- C10: when the stored password trims to the masking placeholder,
`testMysqlConnection` fails fast with `code:PASSWORD_MASKED`, a two-entry
re-add hint, and a trace showing zero connection attempts (no connection ever
opened). -/
theorem c10_masked_password_fails_fast (env : MysqlEnv) (config : ConnConfig)
    (hinst : env.mysql2Installed = true)
    (hmask : jsTrim (config.password.getD "") = PASSWORD_PLACEHOLDER) :
    (testMysqlConnection env config).1 =
      { success := some false,
        error := some "Saved password is masked (***SAVED***). Remove this connection and add it again with the real password.",
        code := some "PASSWORD_MASKED",
        hint := some
          ["This connection was saved with a masked password placeholder.",
           "Remove the connection in the app and add it again, then retype the real password and click Test."] } ∧
    (testMysqlConnection env config).2 = ⟨0, 0, 0⟩ ∧
    (testMysqlConnection env config).2.connectAttempts = 0 := by
  refine ⟨?_, ?_, ?_⟩ <;> simp [testMysqlConnection, hinst, hmask]

/-- C10 witness: a saved password of `" ***SAVED*** "` (trimming to the
placeholder) triggers the fail-fast masked-password result with no connect
attempt. -/
theorem c10_masked_password_fails_fast_witness :
    c10Env.mysql2Installed = true ∧
    jsTrim (c10Config.password.getD "") = PASSWORD_PLACEHOLDER ∧
    ((testMysqlConnection c10Env c10Config).1 =
      { success := some false,
        error := some "Saved password is masked (***SAVED***). Remove this connection and add it again with the real password.",
        code := some "PASSWORD_MASKED",
        hint := some
          ["This connection was saved with a masked password placeholder.",
           "Remove the connection in the app and add it again, then retype the real password and click Test."] } ∧
    (testMysqlConnection c10Env c10Config).2 = ⟨0, 0, 0⟩ ∧
    (testMysqlConnection c10Env c10Config).2.connectAttempts = 0) :=
  ⟨rfl, by decide, c10_masked_password_fails_fast c10Env c10Config rfl (by decide)⟩
